import Mathlib

/-
  Shallow embedding of the zetsubou-life/javascript-sdk client core:
  the ZetsubouClient request/retry/error-translation pipeline
  (src/unnamed/part_001, exceptions in src/src/exceptions.ts),
  the JobsService.waitForCompletion polling loop (src/src/services/jobs.ts),
  the GraphQLService.query error surfacing (src/src/services/graphql.ts),
  and the constructor configuration defaults.

  Conventions of the embedding:
  - JavaScript numbers that can be NaN are modelled by `JsNum`.
  - JavaScript `x || d` on strings / numbers (empty string and 0 are falsy)
    is modelled by `jsOrString` / `jsOrNat`.
  - Exceptions become values: the exception subclass is the `ErrorKind` tag.
  - Asynchronous loops become fuel-indexed structural recursions; the fuel
    supplied at the entry points provably suffices, so the `outOfFuel` /
    fuel-exhausted branches are unreachable on the modelled runs.
-/

/-- The exception subclasses of exceptions.ts, as tags. `zetsubou` is the
base class `ZetsubouError` itself (the generic SDK error). -/
inductive ErrorKind
  | zetsubou
  | authentication
  | rateLimit
  | validation
  | notFound
  | server
deriving DecidableEq, Repr

/-- A JavaScript number that may be NaN (as produced by `parseInt`). -/
inductive JsNum
  | nan
  | int (n : Int)
deriving DecidableEq, Repr

/-- Model of a thrown `ZetsubouError` (or subclass) instance: the subclass
tag, the `message`, and the `retryAfter` field (present exactly on
`RateLimitError`). The `errorData` payload, `code` and `statusCode` fields
are passed through opaquely by the source and are not needed by any claim,
so they are omitted. -/
structure ZetsubouError where
  kind : ErrorKind
  message : String
  retryAfter : Option JsNum
deriving DecidableEq, Repr

/-- The parts of an axios HTTP error response that `handleError` reads:
`status`, `data?.message`, and the `retry-after` header. -/
structure HttpResponse where
  status : Nat
  dataMessage : Option String
  retryAfterHeader : Option String
deriving DecidableEq, Repr

/-- An axios rejection value: `response` is present when the server answered
with a non-2xx status, `hasRequest` is whether a request object exists
(request sent but no response received), `message` is the error message. -/
structure AxiosError where
  response : Option HttpResponse
  hasRequest : Bool
  message : String
deriving DecidableEq, Repr

/-- A value reaching the `catch` in `ZetsubouClient.request`: either an
axios error, or an already-translated `ZetsubouError` re-thrown by the
response interceptor. A `ZetsubouError` instance has neither a `.response`
nor a `.request` property, which is what the duck-typed `handleError`
tests. -/
inductive JsError
  | axios (e : AxiosError)
  | sdk (z : ZetsubouError)
deriving DecidableEq, Repr

/-- JavaScript `s || d` for strings: the empty string is falsy. -/
def jsOrString (s : Option String) (d : String) : String :=
  match s with
  | none => d
  | some v => if v = "" then d else v

/-- JavaScript `n || d` for numbers: 0 is falsy. -/
def jsOrNat (n : Option Nat) (d : Nat) : Nat :=
  match n with
  | none => d
  | some v => if v = 0 then d else v

/-- Value of the leading decimal-digit run of a character list; `none` when
the list does not start with a digit. -/
def parseDigits (cs : List Char) : Option Nat :=
  let ds := cs.takeWhile Char.isDigit
  if ds.isEmpty then none
  else some (ds.foldl (fun a c => 10 * a + (c.toNat - 48)) 0)

/-- JavaScript `parseInt(s)` (radix 10): skip leading whitespace, optional
sign, then the longest leading digit run; NaN when no digits follow.
Trailing characters are ignored by `parseInt`, so only leading whitespace
needs skipping. (The `0x` hexadecimal form of `parseInt` is irrelevant to
retry-after header values and is not modelled.) -/
def jsParseInt (s : String) : JsNum :=
  match s.toList.dropWhile Char.isWhitespace with
  | '-' :: rest =>
      match parseDigits rest with
      | some n => JsNum.int (-(n : Int))
      | none => JsNum.nan
  | '+' :: rest =>
      match parseDigits rest with
      | some n => JsNum.int (n : Int)
      | none => JsNum.nan
  | cs =>
      match parseDigits cs with
      | some n => JsNum.int (n : Int)
      | none => JsNum.nan

/-- ZetsubouClient.handleError (src/unnamed/part_001 lines 154-183): maps
an error to a `ZetsubouError` subclass. With a response: switch on status
(400/401/404/429/500/502/503/504, default generic). Without a response but
with a request: network error. Otherwise: "Request error: " + message;
note that an already-translated `ZetsubouError` fed back in takes this last
branch, because it has neither `.response` nor `.request`. -/
def ZetsubouClient.handleError (error : JsError) : ZetsubouError :=
  match error with
  | JsError.axios e =>
      match e.response with
      | some resp =>
          let message := jsOrString resp.dataMessage ("HTTP " ++ toString resp.status)
          if resp.status = 400 then ⟨ErrorKind.validation, message, none⟩
          else if resp.status = 401 then ⟨ErrorKind.authentication, message, none⟩
          else if resp.status = 404 then ⟨ErrorKind.notFound, message, none⟩
          else if resp.status = 429 then
            ⟨ErrorKind.rateLimit, message,
              some (jsParseInt (jsOrString resp.retryAfterHeader "60"))⟩
          else if resp.status = 500 ∨ resp.status = 502 ∨ resp.status = 503 ∨ resp.status = 504 then
            ⟨ErrorKind.server, message, none⟩
          else ⟨ErrorKind.zetsubou, message, none⟩
      | none =>
          if e.hasRequest then
            ⟨ErrorKind.zetsubou, "Network error: Unable to reach the API", none⟩
          else ⟨ErrorKind.zetsubou, "Request error: " ++ e.message, none⟩
  | JsError.sdk z => ⟨ErrorKind.zetsubou, "Request error: " ++ z.message, none⟩

/-- Observable trace of one run of `this.axios.request(config)` through the
response interceptor (src/unnamed/part_001 lines 65-86): how many HTTP
attempts were dispatched, the backoff delays (ms) awaited between them in
order, the values of `config.retry` observed on entry to the interceptor's
rejection handler in order, and the promise outcome — `Except.ok k` means
attempt `k` (0-indexed) resolved, `Except.error z` means the promise was
rejected with the translated error `z`. -/
structure RunTrace where
  attempts : Nat
  delays : List Nat
  counters : List Nat
  outcome : Except ZetsubouError Nat
deriving Repr

/-- The response-interceptor retry loop (src/unnamed/part_001 lines 65-86),
driven by `attempt : Nat → Option AxiosError`, the behaviour of the HTTP
transport on the k-th dispatch (`none` = the attempt resolved 2xx, `some e`
= it was rejected with `e`). `retryAttempts` is `this.retryAttempts`;
`retry` is `config.retry`, initialised 0 by the handler on the first
rejection and incremented before each re-dispatch; the delay awaited is
`Math.pow(2, config.retry) * 1000` after the increment. On
`config.retry >= this.retryAttempts` the promise is rejected with
`handleError(error)`. `fuel` bounds the recursion; `retryAttempts + 1`
provably suffices from `retry = 0`, so the fuel-exhausted branch is
unreachable from `axiosRequest`. -/
def interceptorGo (retryAttempts : Nat) (attempt : Nat → Option AxiosError)
    (fuel retry k : Nat) : RunTrace :=
  match fuel with
  | 0 => ⟨0, [], [], Except.error ⟨ErrorKind.zetsubou, "fuel exhausted", none⟩⟩
  | fuel' + 1 =>
      match attempt k with
      | none => ⟨1, [], [], Except.ok k⟩
      | some e =>
          if retryAttempts ≤ retry then
            ⟨1, [], [retry], Except.error (ZetsubouClient.handleError (JsError.axios e))⟩
          else
            let delay := 2 ^ (retry + 1) * 1000
            let rest := interceptorGo retryAttempts attempt fuel' (retry + 1) (k + 1)
            ⟨rest.attempts + 1, delay :: rest.delays, retry :: rest.counters, rest.outcome⟩

/-- One full run of `this.axios.request(config)`: the interceptor loop
started with no retry counter on the config (initialised to 0 on the first
rejection). -/
def axiosRequest (retryAttempts : Nat) (attempt : Nat → Option AxiosError) : RunTrace :=
  interceptorGo retryAttempts attempt (retryAttempts + 1) 0 0

/-- ZetsubouClient.request (src/unnamed/part_001 lines 100-106):
`try { return await this.axios.request(config) } catch (error)
{ throw this.handleError(error) }`. A rejection reaching the catch is the
`ZetsubouError` produced by the interceptor, so `handleError` is applied to
it a second time, through the `JsError.sdk` shape. -/
def ZetsubouClient.request (retryAttempts : Nat)
    (attempt : Nat → Option AxiosError) : Except ZetsubouError Nat :=
  match (axiosRequest retryAttempts attempt).outcome with
  | Except.ok k => Except.ok k
  | Except.error z => Except.error (ZetsubouClient.handleError (JsError.sdk z))

/-- The public constructor configuration (`ZetsubouClientConfig`,
src/unnamed/part_001 lines 26-37): optional fields model the optional
properties. `hasAxiosInstance` records whether a custom `axiosInstance`
was supplied (in which case the `baseURL`/`timeout` fields are not used by
the constructor). -/
structure ZetsubouClientConfig where
  apiKey : String
  baseURL : Option String
  timeout : Option Nat
  retryAttempts : Option Nat
  hasAxiosInstance : Bool
deriving DecidableEq, Repr

/-- The value of `this.retryAttempts` set by the constructor
(src/unnamed/part_001 line 51): `config.retryAttempts || 3`. -/
def ZetsubouClient.resolvedRetryAttempts (config : ZetsubouClientConfig) : Nat :=
  jsOrNat config.retryAttempts 3

/-- The `timeout` passed to `axios.create` by the constructor when no
custom instance is supplied (src/unnamed/part_001 line 56):
`config.timeout || 30000`. -/
def ZetsubouClient.resolvedTimeout (config : ZetsubouClientConfig) : Nat :=
  jsOrNat config.timeout 30000

/-- The `baseURL` passed to `axios.create` by the constructor when no
custom instance is supplied (src/unnamed/part_001 line 55):
`config.baseURL || 'https://zetsubou.life'`. -/
def ZetsubouClient.resolvedBaseURL (config : ZetsubouClientConfig) : String :=
  jsOrString config.baseURL "https://zetsubou.life"

/-- The parts of a `Job` read by `waitForCompletion`
(src/src/models.ts via src/src/services/jobs.ts): `status` is a plain
string in the source, compared against the literals "completed", "failed"
and "cancelled"; `error` is the optional error detail. -/
structure Job where
  status : String
  error : Option String
deriving DecidableEq, Repr

/-- JavaScript template-literal rendering of a possibly-undefined string,
as in the backtick string `Job ... failed: ${job.error}`. -/
def jsTemplate (s : Option String) : String :=
  match s with
  | none => "undefined"
  | some v => v

/-- How one call of `waitForCompletion` ends: return of the completed job,
or a thrown `Error` with the given message (tagged by which `throw` site
produced it), or fuel exhaustion (unreachable from `waitForCompletion`). -/
inductive WaitOutcome
  | completedJob (job : Job)
  | failedErr (msg : String)
  | cancelledErr (msg : String)
  | timedOut (msg : String)
  | outOfFuel
deriving DecidableEq, Repr

/-- Observable trace of one `waitForCompletion` call: number of status
fetches issued (`this.get(jobId)` calls), number of poll-interval sleeps
awaited, the value of `Date.now() - startTime` when the call ended, and
the outcome. -/
structure WaitTrace where
  fetches : Nat
  sleeps : Nat
  elapsed : Nat
  outcome : WaitOutcome
deriving DecidableEq, Repr

/-- The body of JobsService.waitForCompletion (src/src/services/jobs.ts
lines 40-57), with time made explicit: each fetch is instantaneous and
each sleep advances the clock by exactly `pollInterval` ms (the source
measures real wall-clock time with `Date.now()`; fetch latency only shifts
the elapsed values upward). `jobs i` is the job returned by the i-th
status fetch (0-indexed); `i` counts fetches so far, `elapsed` is
`Date.now() - startTime`. The loop runs `while (Date.now() - startTime <
timeout)`: fetch, return on "completed", throw on "failed" / "cancelled",
otherwise sleep `pollInterval` and repeat; on loop exit throw the
timed-out error, whose message interpolates the configured `timeout`. -/
def JobsService.wfcGo (jobs : Nat → Job) (jobId : String)
    (timeout pollInterval : Nat) (fuel i elapsed : Nat) : WaitTrace :=
  match fuel with
  | 0 => ⟨i, i, elapsed, WaitOutcome.outOfFuel⟩
  | fuel' + 1 =>
      if elapsed < timeout then
        let job := jobs i
        if job.status = "completed" then
          ⟨i + 1, i, elapsed, WaitOutcome.completedJob job⟩
        else if job.status = "failed" then
          ⟨i + 1, i, elapsed, WaitOutcome.failedErr
            ("Job " ++ jobId ++ " failed: " ++ jsTemplate job.error)⟩
        else if job.status = "cancelled" then
          ⟨i + 1, i, elapsed, WaitOutcome.cancelledErr
            ("Job " ++ jobId ++ " was cancelled")⟩
        else
          JobsService.wfcGo jobs jobId timeout pollInterval fuel' (i + 1)
            (elapsed + pollInterval)
      else
        ⟨i, i, elapsed, WaitOutcome.timedOut
          ("Job " ++ jobId ++ " timed out after " ++ toString timeout ++ "ms")⟩

/-- JobsService.waitForCompletion (src/src/services/jobs.ts lines 35-58):
the poll loop started with no fetches and zero elapsed time. The fuel
`timeout / pollInterval + 2` provably suffices whenever
`0 < pollInterval`. -/
def JobsService.waitForCompletion (jobs : Nat → Job) (jobId : String)
    (timeout pollInterval : Nat) : WaitTrace :=
  JobsService.wfcGo jobs jobId timeout pollInterval (timeout / pollInterval + 2) 0 0

/-- One entry of the GraphQL `errors` array
(src/src/services/graphql.ts lines 11-17); only `message` is read by
`query`, the optional `extensions` object is never inspected and is
omitted. -/
structure GraphQLErrorEntry where
  message : String
deriving DecidableEq, Repr

/-- A decoded GraphQL response body `{data?, errors?}`
(src/src/services/graphql.ts lines 9-18). -/
structure GraphQLResponse (α : Type) where
  data : Option α
  errors : Option (List GraphQLErrorEntry)
deriving DecidableEq, Repr

/-- The error-surfacing tail of GraphQLService.query
(src/src/services/graphql.ts lines 54-63), applied to the decoded response
body of the POST: `if (data.errors && data.errors.length > 0)` throw an
`Error` whose message joins all entry messages with "; ", otherwise return
the response body unchanged. -/
def GraphQLService.query {α : Type} (resp : GraphQLResponse α) :
    Except String (GraphQLResponse α) :=
  match resp.errors with
  | some errs =>
      if 0 < errs.length then
        Except.error ("GraphQL errors: " ++
          String.intercalate "; " (errs.map GraphQLErrorEntry.message))
      else Except.ok resp
  | none => Except.ok resp

/-- An axios rejection for a plain 400 response with no JSON error body. -/
def err400 : AxiosError :=
  ⟨some ⟨400, none, none⟩, true, "Request failed with status code 400"⟩

/-- An axios rejection for a connection-level failure: a request was sent
but no response was received. -/
def netError : AxiosError := ⟨none, true, "Network Error"⟩

/-- A job snapshot that is still running. -/
def runningJob : Job := ⟨"running", none⟩

/-- C1: the claim says the error ultimately raised by the public request
operation for a 400 response is a ValidationError. The code violates this:
the interceptor does reject with the correctly mapped ValidationError, but
the catch block of `ZetsubouClient.request` applies `handleError` to that
already-translated error a second time; having neither `.response` nor
`.request`, it is re-wrapped into a base-class `ZetsubouError` with message
"Request error: HTTP 400". So the caller never receives the mapped kind,
contradicting both the claim and the SDK's own documented
`instanceof ValidationError` handling. -/
theorem C1_request_rewraps_mapped_error :
    ZetsubouClient.request 3 (fun _ => some err400) =
      Except.error ⟨ErrorKind.zetsubou, "Request error: HTTP 400", none⟩ ∧
    (axiosRequest 3 (fun _ => some err400)).outcome =
      Except.error ⟨ErrorKind.validation, "HTTP 400", none⟩ ∧
    decide (ErrorKind.zetsubou = ErrorKind.validation) = false :=
  ⟨rfl, rfl, rfl⟩

/-- C2 counterexample: with maximum retry attempts M = 1 and every attempt
failing with a connection-level error, the transport is attempted 2 times
(the initial attempt plus 1 retry), not exactly M = 1 times as the claim
states. -/
theorem C2_counterexample_two_attempts_at_M1 :
    (axiosRequest 1 (fun _ => some netError)).attempts = 2 ∧
    decide ((2 : Nat) = 1) = false :=
  ⟨rfl, rfl⟩

/-- C3 counterexample: a 429 response whose retry-after header is present
but unparsable ("soon") produces a RateLimitError whose retryAfter is NaN
(`parseInt('soon' || '60') = parseInt('soon') = NaN`), not 60 as the claim
states. -/
theorem C3_counterexample_unparsable_header_gives_nan :
    ZetsubouClient.handleError
        (JsError.axios ⟨some ⟨429, none, some "soon"⟩, true, "Request failed with status code 429"⟩) =
      ⟨ErrorKind.rateLimit, "HTTP 429", some JsNum.nan⟩ ∧
    decide (JsNum.nan = JsNum.int 60) = false :=
  ⟨rfl, rfl⟩

/-- C4 counterexample: a response classified as a 400 Validation failure is
followed by retries of the same logical call — with M = 3 and every
attempt answered 400, the transport is attempted 4 times, whereas the
claim requires that a non-transient failure is never followed by a retry
(which would mean exactly 1 attempt). -/
theorem C4_counterexample_400_is_retried :
    (axiosRequest 3 (fun _ => some err400)).attempts = 4 ∧
    decide ((4 : Nat) ≤ 1) = false :=
  ⟨rfl, rfl⟩

/-- C5 counterexample: with poll interval 5000 ms and timeout 12000 ms
against a job that never leaves running, the timeout error is indeed
raised after the 3rd fetch, but its message interpolates the configured
timeout (12000 ms), not the elapsed duration: the trace's elapsed time at
the throw is 15000 ms and the substring "15000" does not occur in the
message. -/
theorem C5_counterexample_message_names_timeout_not_elapsed :
    JobsService.waitForCompletion (fun _ => runningJob) "j1" 12000 5000 =
      ⟨3, 3, 15000, WaitOutcome.timedOut "Job j1 timed out after 12000ms"⟩ ∧
    decide ("15000".toList <:+: ("Job j1 timed out after 12000ms").toList) = false :=
  ⟨rfl, by decide⟩

/-- Unfolding a successor range under a map: the head is the image of 0 and
the tail shifts the argument by one. -/
theorem map_range_succ {α : Type} (f : Nat → α) (n : Nat) :
    (List.range (n + 1)).map f = f 0 :: (List.range n).map (fun i => f (i + 1)) := by
  rw [List.range_succ_eq_map, List.map_cons, List.map_map]
  rfl

/-- Characterization of the interceptor loop when every attempt is
rejected with the same error `e`: starting from counter value `retry`,
with enough fuel, the loop makes `M - retry + 1` further attempts, awaits
delays `2^(retry+1), ..., 2^M` seconds, observes counter values
`retry, ..., M`, and rejects with the translated error. -/
theorem interceptorGo_const_fail (M : Nat) (e : AxiosError)
    (fuel retry k : Nat) (h1 : retry ≤ M) (h2 : M - retry < fuel) :
    interceptorGo M (fun _ => some e) fuel retry k =
      ⟨M - retry + 1,
       (List.range (M - retry)).map (fun i => 2 ^ (retry + 1 + i) * 1000),
       (List.range (M - retry + 1)).map (fun i => retry + i),
       Except.error (ZetsubouClient.handleError (JsError.axios e))⟩ := by
  induction fuel generalizing retry k with
  | zero => omega
  | succ f ih =>
      by_cases hms : M ≤ retry
      · have hret : retry = M := le_antisymm h1 hms
        have hz : M - retry = 0 := by omega
        simp [interceptorGo, hms, hz, hret, List.range_succ]
      · have hlt : retry < M := lt_of_not_le hms
        have hrec := ih (retry + 1) (k + 1) (by omega) (by omega)
        have hgo : interceptorGo M (fun _ => some e) (f + 1) retry k =
            ⟨(M - (retry + 1) + 1) + 1,
             2 ^ (retry + 1) * 1000 ::
               (List.range (M - (retry + 1))).map (fun i => 2 ^ (retry + 1 + 1 + i) * 1000),
             retry :: (List.range (M - (retry + 1) + 1)).map (fun i => retry + 1 + i),
             Except.error (ZetsubouClient.handleError (JsError.axios e))⟩ := by
          simp [interceptorGo, hms, hrec]
        rw [hgo]
        have hsplit : M - retry = (M - (retry + 1)) + 1 := by omega
        simp only [RunTrace.mk.injEq]
        refine ⟨by omega, ?_, ?_, trivial⟩
        · rw [hsplit]
          conv_rhs => rw [map_range_succ]
          simp only [List.cons.injEq]
          refine ⟨by simp, ?_⟩
          refine List.map_congr_left ?_
          intro a _
          show 2 ^ (retry + 1 + 1 + a) * 1000 = 2 ^ (retry + 1 + (a + 1)) * 1000
          have hx : retry + 1 + (a + 1) = retry + 1 + 1 + a := by omega
          rw [hx]
        · rw [hsplit]
          conv_rhs => rw [map_range_succ]
          simp only [List.cons.injEq]
          refine ⟨by simp, ?_⟩
          refine List.map_congr_left ?_
          intro a _
          show retry + 1 + a = retry + (a + 1)
          omega
/-- C2 (amended): for every configured maximum retry attempts M, a logical
call whose every attempt fails with a connection-level (transient) error
is attempted exactly M + 1 times — the initial attempt plus M retries —
before the structured error is raised, with uncapped backoff delays of
2^1, 2^2, ..., 2^M seconds (2000, ..., 2^M * 1000 ms) before the 1st
through M-th retries; the interceptor rejects with the mapped
network-failure error, which the public request operation then re-wraps
once more. -/
theorem C2_transient_run_attempt_count_and_delays (M : Nat) (msg : String) :
    (axiosRequest M (fun _ => some ⟨none, true, msg⟩)).attempts = M + 1 ∧
    (axiosRequest M (fun _ => some ⟨none, true, msg⟩)).delays =
      (List.range M).map (fun i => 2 ^ (i + 1) * 1000) ∧
    (axiosRequest M (fun _ => some ⟨none, true, msg⟩)).outcome =
      Except.error ⟨ErrorKind.zetsubou, "Network error: Unable to reach the API", none⟩ ∧
    ZetsubouClient.request M (fun _ => some ⟨none, true, msg⟩) =
      Except.error
        ⟨ErrorKind.zetsubou, "Request error: Network error: Unable to reach the API", none⟩ := by
  have h := interceptorGo_const_fail M ⟨none, true, msg⟩ (M + 1) 0 0 (Nat.zero_le M) (by omega)
  simp only [Nat.sub_zero] at h
  have hax : axiosRequest M (fun _ => some ⟨none, true, msg⟩) =
      ⟨M + 1, (List.range M).map (fun i => 2 ^ (0 + 1 + i) * 1000),
       (List.range (M + 1)).map (fun i => 0 + i),
       Except.error (ZetsubouClient.handleError
         (JsError.axios ⟨none, true, msg⟩))⟩ := by
    rw [axiosRequest, h]
  refine ⟨by rw [hax], ?_, by rw [hax]; rfl, by rw [ZetsubouClient.request, hax]; rfl⟩
  rw [hax]
  refine List.map_congr_left ?_
  intro a _
  show 2 ^ (0 + 1 + a) * 1000 = 2 ^ (a + 1) * 1000
  have hx : 0 + 1 + a = a + 1 := by omega
  rw [hx]

/-- C4 (amended): the interceptor retries indiscriminately — every
rejected attempt, whatever its classification (a 400 Validation or 404
NotFound response included), is retried until the retry cap is reached, so
a call whose attempts all fail with any fixed error makes M + 1 transport
attempts; in particular, whenever M ≥ 1, a non-transient response is
followed by at least one retry of the same logical call. -/
theorem C4_every_failure_retried_to_cap (M : Nat) (e : AxiosError) :
    (axiosRequest M (fun _ => some e)).attempts = M + 1 ∧
    (1 ≤ M → 2 ≤ (axiosRequest M (fun _ => some e)).attempts) := by
  have h := interceptorGo_const_fail M e (M + 1) 0 0 (Nat.zero_le M) (by omega)
  simp only [Nat.sub_zero] at h
  have hat : (axiosRequest M (fun _ => some e)).attempts = M + 1 := by
    rw [axiosRequest, h]
  exact ⟨hat, fun hm => by rw [hat]; omega⟩

/-- Witness for C4 (amended) at M = 3 with every attempt answered by
a 400 Validation-classified response: the call is attempted 4 times, in
particular the 400 response is followed by a retry. -/
theorem C4_witness_M3_400 :
    (axiosRequest 3 (fun _ => some err400)).attempts = 3 + 1 ∧
    2 ≤ (axiosRequest 3 (fun _ => some err400)).attempts :=
  ⟨(C4_every_failure_retried_to_cap 3 err400).1,
   (C4_every_failure_retried_to_cap 3 err400).2 (by decide)⟩

/-- Invariant of the interceptor loop for an arbitrary transport
behaviour: all observed counter values lie between the starting value and
the cap, the number of attempts is bounded, a rejected outcome means the
cap value was observed, and observing the cap value means the loop
rejected rather than retrying further. -/
theorem interceptorGo_counter_invariant (M : Nat) (attempt : Nat → Option AxiosError)
    (fuel retry k : Nat) (h1 : retry ≤ M) (h2 : M - retry < fuel) :
    (∀ c ∈ (interceptorGo M attempt fuel retry k).counters, retry ≤ c ∧ c ≤ M) ∧
    (interceptorGo M attempt fuel retry k).attempts ≤ M - retry + 1 ∧
    (∀ z, (interceptorGo M attempt fuel retry k).outcome = Except.error z →
      M ∈ (interceptorGo M attempt fuel retry k).counters) ∧
    (M ∈ (interceptorGo M attempt fuel retry k).counters →
      ∃ z, (interceptorGo M attempt fuel retry k).outcome = Except.error z) := by
  induction fuel generalizing retry k with
  | zero => omega
  | succ f ih =>
      cases hatt : attempt k with
      | none =>
          have hgo : interceptorGo M attempt (f + 1) retry k = ⟨1, [], [], Except.ok k⟩ := by
            simp [interceptorGo, hatt]
          refine ⟨?_, ?_, ?_, ?_⟩ <;> rw [hgo]
          · intro c hc
            simp at hc
          · show 1 ≤ M - retry + 1
            omega
          · intro z hz
            simp at hz
          · intro hm
            simp at hm
      | some e =>
          by_cases hms : M ≤ retry
          · have hret : retry = M := le_antisymm h1 hms
            have hgo : interceptorGo M attempt (f + 1) retry k =
                ⟨1, [], [retry],
                 Except.error (ZetsubouClient.handleError (JsError.axios e))⟩ := by
              simp [interceptorGo, hatt, hms]
            refine ⟨?_, ?_, ?_, ?_⟩ <;> rw [hgo]
            · intro c hc
              simp at hc
              omega
            · show 1 ≤ M - retry + 1
              omega
            · intro z _
              simp [hret]
            · intro _
              exact ⟨_, rfl⟩
          · have hlt : retry < M := lt_of_not_le hms
            have hrec := ih (retry + 1) (k + 1) (by omega) (by omega)
            have hgo : interceptorGo M attempt (f + 1) retry k =
                ⟨(interceptorGo M attempt f (retry + 1) (k + 1)).attempts + 1,
                 2 ^ (retry + 1) * 1000 ::
                   (interceptorGo M attempt f (retry + 1) (k + 1)).delays,
                 retry :: (interceptorGo M attempt f (retry + 1) (k + 1)).counters,
                 (interceptorGo M attempt f (retry + 1) (k + 1)).outcome⟩ := by
              simp [interceptorGo, hatt, hms]
            refine ⟨?_, ?_, ?_, ?_⟩ <;> rw [hgo]
            · intro c hc
              rcases List.mem_cons.mp hc with hc | hc
              · omega
              · have := hrec.1 c hc
                omega
            · show (interceptorGo M attempt f (retry + 1) (k + 1)).attempts + 1 ≤ M - retry + 1
              have := hrec.2.1
              omega
            · intro z hz
              exact List.mem_cons_of_mem _ (hrec.2.2.1 z hz)
            · intro hm
              rcases List.mem_cons.mp hm with hm | hm
              · omega
              · exact hrec.2.2.2 hm

/-- C8: throughout any single logical call, whatever the transport does,
the retry counter attached to the request config never exceeds the
configured maximum retry attempts, the transport is attempted at most
M + 1 times, and once the counter reaches the maximum the pipeline
terminates the call by rejecting with a structured `ZetsubouError` rather
than retrying again. -/
theorem C8_retry_counter_never_exceeds_cap (M : Nat) (attempt : Nat → Option AxiosError) :
    (∀ c ∈ (axiosRequest M attempt).counters, c ≤ M) ∧
    (axiosRequest M attempt).attempts ≤ M + 1 ∧
    (M ∈ (axiosRequest M attempt).counters →
      ∃ z, (axiosRequest M attempt).outcome = Except.error z) := by
  have h := interceptorGo_counter_invariant M attempt (M + 1) 0 0 (Nat.zero_le M) (by omega)
  rw [axiosRequest]
  refine ⟨fun c hc => (h.1 c hc).2, ?_, h.2.2.2⟩
  have := h.2.1
  omega

/-- Witness for C8 at M = 1 with every attempt failing at the transport
level: the observed counter value 0 is at most the cap 1, and since the
cap value 1 is observed, the run rejects with a structured error. -/
theorem C8_witness_M1 :
    (0 : Nat) ≤ 1 ∧
    ∃ z, (axiosRequest 1 (fun _ => some netError)).outcome = Except.error z :=
  ⟨(C8_retry_counter_never_exceeds_cap 1 (fun _ => some netError)).1 0 (by decide),
   (C8_retry_counter_never_exceeds_cap 1 (fun _ => some netError)).2.2 (by decide)⟩
/-- A job status on which the polling loop keeps going: none of the three
terminal literals compared against in the source. -/
def nonTerminal (j : Job) : Prop :=
  j.status ≠ "completed" ∧ j.status ≠ "failed" ∧ j.status ≠ "cancelled"

/-- Advancing the polling loop over `k` consecutive non-terminal fetches
whose checks all pass: the loop state moves `k` fetches and `k` sleeps
forward, consuming `k` fuel. -/
theorem wfcGo_skip (jobs : Nat → Job) (jobId : String) (timeout pollInterval : Nat)
    (k : Nat) :
    ∀ (fuel i e : Nat), k ≤ fuel →
      (∀ j, j < k → nonTerminal (jobs (i + j))) →
      (∀ j, j < k → e + j * pollInterval < timeout) →
      JobsService.wfcGo jobs jobId timeout pollInterval fuel i e =
        JobsService.wfcGo jobs jobId timeout pollInterval (fuel - k) (i + k)
          (e + k * pollInterval) := by
  induction k with
  | zero =>
      intro fuel i e _ _ _
      simp
  | succ k ih =>
      intro fuel i e hf hnt hlt
      cases fuel with
      | zero => omega
      | succ f =>
          have h0 : e < timeout := by
            have := hlt 0 (by omega)
            omega
          have hn : nonTerminal (jobs i) := by
            have := hnt 0 (by omega)
            simpa using this
          have hstep : JobsService.wfcGo jobs jobId timeout pollInterval (f + 1) i e =
              JobsService.wfcGo jobs jobId timeout pollInterval f (i + 1)
                (e + pollInterval) := by
            simp [JobsService.wfcGo, h0, hn.1, hn.2.1, hn.2.2]
          rw [hstep]
          have e1 : f + 1 - (k + 1) = f - k := by omega
          have e2 : i + (k + 1) = i + 1 + k := by omega
          have e3 : e + (k + 1) * pollInterval = e + pollInterval + k * pollInterval := by
            ring
          rw [e1, e2, e3]
          refine ih f (i + 1) (e + pollInterval) (by omega) ?_ ?_
          · intro j hj
            have := hnt (j + 1) (by omega)
            have hx : i + (j + 1) = i + 1 + j := by omega
            rwa [hx] at this
          · intro j hj
            have := hlt (j + 1) (by omega)
            have hx : (j + 1) * pollInterval = j * pollInterval + pollInterval := by ring
            omega
/-- C6: for a job that reports pending on its first two fetches and
completed on the third, waitForCompletion returns the completed snapshot
after exactly 3 status fetches and 2 poll-interval sleeps, at elapsed time
2 * pollInterval. -/
theorem C6_pending_pending_completed (jobs : Nat → Job) (jobId : String)
    (timeout pollInterval : Nat) (hp : 0 < pollInterval)
    (ht : 2 * pollInterval < timeout)
    (h0 : (jobs 0).status = "pending") (h1 : (jobs 1).status = "pending")
    (h2 : (jobs 2).status = "completed") :
    JobsService.waitForCompletion jobs jobId timeout pollInterval =
      ⟨3, 2, 2 * pollInterval, WaitOutcome.completedJob (jobs 2)⟩ := by
  have hdiv : 1 ≤ timeout / pollInterval := by
    rw [Nat.one_le_div_iff hp]
    omega
  have hskip := wfcGo_skip jobs jobId timeout pollInterval 2
    (timeout / pollInterval + 2) 0 0 (by omega) ?_ ?_
  · rw [JobsService.waitForCompletion, hskip]
    obtain ⟨m, hm⟩ : ∃ m, timeout / pollInterval + 2 - 2 = m + 1 :=
      ⟨timeout / pollInterval - 1, by omega⟩
    rw [hm]
    have hz : (0 : Nat) + 2 = 2 := by omega
    have hz2 : (0 : Nat) + 2 * pollInterval = 2 * pollInterval := by omega
    rw [hz, hz2]
    simp [JobsService.wfcGo, ht, h2]
  · intro j hj
    have hj2 : j = 0 ∨ j = 1 := by omega
    rcases hj2 with rfl | rfl
    · refine ⟨?_, ?_, ?_⟩ <;> (show (jobs 0).status ≠ _) <;> rw [h0] <;> decide
    · refine ⟨?_, ?_, ?_⟩ <;> (show (jobs 1).status ≠ _) <;> rw [h1] <;> decide
  · intro j hj
    have hj2 : j = 0 ∨ j = 1 := by omega
    rcases hj2 with rfl | rfl <;> omega

/-- Witness for C6 with the default poll interval 5000 ms, a large
timeout and a concrete pending-pending-completed fetch sequence. -/
theorem C6_witness :
    JobsService.waitForCompletion
        (fun n => if n < 2 then ⟨"pending", none⟩ else ⟨"completed", none⟩)
        "j6" 3600000 5000 =
      ⟨3, 2, 2 * 5000, WaitOutcome.completedJob ⟨"completed", none⟩⟩ :=
  C6_pending_pending_completed
    (fun n => if n < 2 then ⟨"pending", none⟩ else ⟨"completed", none⟩)
    "j6" 3600000 5000 (by decide) (by decide) (by decide) (by decide) (by decide)

/-- C7: if the first k fetches of a wait are non-terminal and the (k+1)-th
fetch (index k) is terminal before the timeout, then: a failed status makes
the call fail immediately with an error embedding the job's reported error
detail, and a cancelled status makes it fail immediately with the distinct
"was cancelled" error; in both cases exactly k + 1 fetches are issued, so
the job is never fetched again after the terminal observation, and no
retry of the wait happens. -/
theorem C7_terminal_states_surface_immediately (jobs : Nat → Job) (jobId : String)
    (timeout pollInterval k : Nat) (hp : 0 < pollInterval)
    (hk : k * pollInterval < timeout)
    (hnt : ∀ j, j < k → nonTerminal (jobs j)) :
    ((jobs k).status = "failed" → ∀ d, (jobs k).error = some d →
      JobsService.waitForCompletion jobs jobId timeout pollInterval =
        ⟨k + 1, k, k * pollInterval,
         WaitOutcome.failedErr ("Job " ++ jobId ++ " failed: " ++ d)⟩) ∧
    ((jobs k).status = "cancelled" →
      JobsService.waitForCompletion jobs jobId timeout pollInterval =
        ⟨k + 1, k, k * pollInterval,
         WaitOutcome.cancelledErr ("Job " ++ jobId ++ " was cancelled")⟩) := by
  have hkdiv : k ≤ timeout / pollInterval := by
    rw [Nat.le_div_iff_mul_le hp]
    omega
  have hskip := wfcGo_skip jobs jobId timeout pollInterval k
    (timeout / pollInterval + 2) 0 0 (by omega) ?_ ?_
  · have hbase : JobsService.waitForCompletion jobs jobId timeout pollInterval =
        JobsService.wfcGo jobs jobId timeout pollInterval
          (timeout / pollInterval + 2 - k) k (k * pollInterval) := by
      rw [JobsService.waitForCompletion, hskip]
      have hz : (0 : Nat) + k = k := by omega
      have hz2 : (0 : Nat) + k * pollInterval = k * pollInterval := by omega
      rw [hz, hz2]
    obtain ⟨m, hm⟩ : ∃ m, timeout / pollInterval + 2 - k = m + 1 :=
      ⟨timeout / pollInterval + 1 - k, by omega⟩
    constructor
    · intro hst d hd
      rw [hbase, hm]
      have hne : (jobs k).status ≠ "completed" := by
        rw [hst]; decide
      simp [JobsService.wfcGo, hk, hne, hst, hd, jsTemplate]
    · intro hst
      rw [hbase, hm]
      have hne : (jobs k).status ≠ "completed" := by
        rw [hst]; decide
      have hne2 : (jobs k).status ≠ "failed" := by
        rw [hst]; decide
      simp [JobsService.wfcGo, hk, hne, hne2, hst]
  · intro j hj
    have := hnt j hj
    simpa using this
  · intro j hj
    have hjp : j * pollInterval < k * pollInterval :=
      Nat.mul_lt_mul_of_lt_of_le hj (le_refl pollInterval) hp
    omega

/-- Witness for C7 at k = 1: one pending fetch, then a failed snapshot
with error detail "boom"; the wait fails with the embedding error after
exactly 2 fetches and 1 sleep. -/
theorem C7_witness :
    JobsService.waitForCompletion
        (fun n => if n = 0 then ⟨"pending", none⟩ else ⟨"failed", some "boom"⟩)
        "j7" 3600000 5000 =
      ⟨1 + 1, 1, 1 * 5000, WaitOutcome.failedErr "Job j7 failed: boom"⟩ :=
  (C7_terminal_states_surface_immediately
      (fun n => if n = 0 then ⟨"pending", none⟩ else ⟨"failed", some "boom"⟩)
      "j7" 3600000 5000 1 (by decide) (by decide)
      (fun j hj => by
        have hj0 : j = 0 := by omega
        subst hj0
        exact ⟨by decide, by decide, by decide⟩)).1 (by decide) "boom" (by decide)
/-- C5 (amended): if no fetch ever observes a terminal status, the wait
fails with a timeout error once the elapsed time reaches the configured
timeout; the error message names the operation id and the configured
timeout duration (not the actually elapsed time, which the trace records
as ceil(timeout / pollInterval) * pollInterval). The number of fetches is
ceil(timeout / pollInterval); with poll interval 5000 ms and timeout
12000 ms this is 3, so the timeout error is raised after the 3rd fetch
and not before 2 fetches. -/
theorem C5_timeout_after_ceil_fetches (jobs : Nat → Job) (jobId : String)
    (timeout pollInterval : Nat) (hp : 0 < pollInterval)
    (hnt : ∀ n, nonTerminal (jobs n)) :
    JobsService.waitForCompletion jobs jobId timeout pollInterval =
      ⟨(timeout + pollInterval - 1) / pollInterval,
       (timeout + pollInterval - 1) / pollInterval,
       ((timeout + pollInterval - 1) / pollInterval) * pollInterval,
       WaitOutcome.timedOut
         ("Job " ++ jobId ++ " timed out after " ++ toString timeout ++ "ms")⟩ := by
  have hKt : timeout ≤ ((timeout + pollInterval - 1) / pollInterval) * pollInterval := by
    have hdm := Nat.div_add_mod (timeout + pollInterval - 1) pollInterval
    have hmlt := Nat.mod_lt (timeout + pollInterval - 1) hp
    have hcm : ((timeout + pollInterval - 1) / pollInterval) * pollInterval =
        pollInterval * ((timeout + pollInterval - 1) / pollInterval) :=
      Nat.mul_comm _ _
    omega
  have hj : ∀ j, j < (timeout + pollInterval - 1) / pollInterval →
      j * pollInterval < timeout := by
    intro j hjlt
    have h1 : (j + 1) * pollInterval ≤
        ((timeout + pollInterval - 1) / pollInterval) * pollInterval :=
      Nat.mul_le_mul_right pollInterval (by omega)
    have h2 : ((timeout + pollInterval - 1) / pollInterval) * pollInterval ≤
        timeout + pollInterval - 1 :=
      Nat.div_mul_le_self _ _
    have h3 : (j + 1) * pollInterval = j * pollInterval + pollInterval := by ring
    omega
  have hK2 : (timeout + pollInterval - 1) / pollInterval ≤ timeout / pollInterval + 1 := by
    have h1 : timeout + pollInterval - 1 ≤ timeout + pollInterval := by omega
    have h2 : (timeout + pollInterval - 1) / pollInterval ≤
        (timeout + pollInterval) / pollInterval := Nat.div_le_div_right h1
    have h3 : (timeout + pollInterval) / pollInterval = timeout / pollInterval + 1 :=
      Nat.add_div_right timeout hp
    omega
  have hskip := wfcGo_skip jobs jobId timeout pollInterval
    ((timeout + pollInterval - 1) / pollInterval)
    (timeout / pollInterval + 2) 0 0 (by omega) ?_ ?_
  · rw [JobsService.waitForCompletion, hskip]
    obtain ⟨m, hm⟩ : ∃ m, timeout / pollInterval + 2 -
        (timeout + pollInterval - 1) / pollInterval = m + 1 :=
      ⟨timeout / pollInterval + 1 - (timeout + pollInterval - 1) / pollInterval, by omega⟩
    rw [hm]
    have hz : (0 : Nat) + (timeout + pollInterval - 1) / pollInterval =
        (timeout + pollInterval - 1) / pollInterval := by omega
    have hz2 : (0 : Nat) + ((timeout + pollInterval - 1) / pollInterval) * pollInterval =
        ((timeout + pollInterval - 1) / pollInterval) * pollInterval := by omega
    rw [hz, hz2]
    have hnlt : ¬ ((timeout + pollInterval - 1) / pollInterval) * pollInterval < timeout := by
      omega
    simp [JobsService.wfcGo, hnlt]
  · intro j _
    exact hnt _
  · intro j hjlt
    have := hj j hjlt
    omega

/-- Witness for C5 (amended): poll interval 5000 ms, timeout 12000 ms, a
job that never leaves running — the timeout error is raised after the 3rd
fetch (16999 / 5000 = 3 fetches), at 15000 ms elapsed, with the message
naming the configured 12000 ms. -/
theorem C5_witness :
    JobsService.waitForCompletion (fun _ => ⟨"running", none⟩) "j5" 12000 5000 =
      ⟨3, 3, 15000, WaitOutcome.timedOut "Job j5 timed out after 12000ms"⟩ :=
  C5_timeout_after_ceil_fetches (fun _ => ⟨"running", none⟩) "j5" 12000 5000
    (by decide) (fun n => ⟨by simp, by simp, by simp⟩)
/-- C3 (amended): the retryAfter value of the RateLimitError produced for
a 429 response equals `parseInt(header || '60')`: 60 when the header is
absent (or the empty string, which JavaScript treats as falsy), the parsed
integer when the header has a parsable leading integer, and NaN — not 60 —
when the header is present, non-empty and unparsable. -/
theorem C3_rate_limit_retry_after (dm : Option String) (msg : String) :
    (ZetsubouClient.handleError
        (JsError.axios ⟨some ⟨429, dm, none⟩, true, msg⟩)).retryAfter =
      some (JsNum.int 60) ∧
    (ZetsubouClient.handleError
        (JsError.axios ⟨some ⟨429, dm, some ""⟩, true, msg⟩)).retryAfter =
      some (JsNum.int 60) ∧
    (∀ s n, s ≠ "" → jsParseInt s = JsNum.int n →
      (ZetsubouClient.handleError
          (JsError.axios ⟨some ⟨429, dm, some s⟩, true, msg⟩)).retryAfter =
        some (JsNum.int n)) ∧
    (∀ s, s ≠ "" → jsParseInt s = JsNum.nan →
      (ZetsubouClient.handleError
          (JsError.axios ⟨some ⟨429, dm, some s⟩, true, msg⟩)).retryAfter =
        some JsNum.nan) := by
  refine ⟨rfl, rfl, ?_, ?_⟩
  · intro s n hs hp
    simp [ZetsubouClient.handleError, jsOrString, hs, hp]
  · intro s hs hp
    simp [ZetsubouClient.handleError, jsOrString, hs, hp]

/-- Witness for C3 (amended): a parsable header "120" yields retryAfter
120 and the unparsable header "soon" yields NaN. -/
theorem C3_witness :
    (ZetsubouClient.handleError
        (JsError.axios ⟨some ⟨429, none, some "120"⟩, true, "m"⟩)).retryAfter =
      some (JsNum.int 120) ∧
    (ZetsubouClient.handleError
        (JsError.axios ⟨some ⟨429, none, some "soon"⟩, true, "m"⟩)).retryAfter =
      some JsNum.nan :=
  ⟨(C3_rate_limit_retry_after none "m").2.2.1 "120" 120 (by decide) (by decide),
   (C3_rate_limit_retry_after none "m").2.2.2 "soon" (by decide) (by decide)⟩

/-- C9: a GraphQL response whose errors array is present and non-empty
makes the query fail with an error combining the messages of all entries,
joined by "; " after the "GraphQL errors: " prefix; a response whose
errors array is absent or empty is returned to the caller unchanged. -/
theorem C9_graphql_errors_combined_or_passthrough (α : Type) (resp : GraphQLResponse α) :
    (∀ l, resp.errors = some l → l ≠ [] →
      GraphQLService.query resp =
        Except.error ("GraphQL errors: " ++
          String.intercalate "; " (l.map GraphQLErrorEntry.message))) ∧
    ((resp.errors = none ∨ resp.errors = some []) →
      GraphQLService.query resp = Except.ok resp) := by
  constructor
  · intro l hl hne
    have hlen : 0 < l.length := List.length_pos.mpr hne
    simp [GraphQLService.query, hl, hlen]
  · intro h
    rcases h with h | h <;> simp [GraphQLService.query, h]

/-- Witness for C9: two error entries are combined into one message; a
response without an errors array passes through unchanged. -/
theorem C9_witness :
    GraphQLService.query (⟨some 1, some [⟨"bad token"⟩, ⟨"unknown field"⟩]⟩ :
        GraphQLResponse Nat) =
      Except.error "GraphQL errors: bad token; unknown field" ∧
    GraphQLService.query (⟨some 2, none⟩ : GraphQLResponse Nat) =
      Except.ok ⟨some 2, none⟩ :=
  ⟨(C9_graphql_errors_combined_or_passthrough Nat
      ⟨some 1, some [⟨"bad token"⟩, ⟨"unknown field"⟩]⟩).1
      [⟨"bad token"⟩, ⟨"unknown field"⟩] rfl (by decide),
   (C9_graphql_errors_combined_or_passthrough Nat ⟨some 2, none⟩).2 (Or.inl rfl)⟩

/-- C10: explicitly setting retryAttempts to 0 (or timeout to 0) behaves
identically to omitting the field — the JavaScript falsy-value fallback
substitutes the defaults 3 and 30000 — and for every configuration the
resolved retry attempts and resolved timeout are positive, so a client
with zero retries or zero timeout cannot be configured through the public
constructor. -/
theorem C10_zero_config_falls_back_to_defaults (key : String) (b : Option String)
    (t r : Option Nat) (inst : Bool) :
    ZetsubouClient.resolvedRetryAttempts ⟨key, b, t, some 0, inst⟩ =
      ZetsubouClient.resolvedRetryAttempts ⟨key, b, t, none, inst⟩ ∧
    ZetsubouClient.resolvedRetryAttempts ⟨key, b, t, none, inst⟩ = 3 ∧
    ZetsubouClient.resolvedTimeout ⟨key, b, some 0, r, inst⟩ =
      ZetsubouClient.resolvedTimeout ⟨key, b, none, r, inst⟩ ∧
    ZetsubouClient.resolvedTimeout ⟨key, b, none, r, inst⟩ = 30000 ∧
    (∀ config : ZetsubouClientConfig,
      0 < ZetsubouClient.resolvedRetryAttempts config ∧
      0 < ZetsubouClient.resolvedTimeout config) := by
  refine ⟨rfl, rfl, rfl, rfl, ?_⟩
  intro config
  constructor
  · rcases hc : config.retryAttempts with _ | v
    · simp [ZetsubouClient.resolvedRetryAttempts, jsOrNat, hc]
    · by_cases hv : v = 0
      · simp [ZetsubouClient.resolvedRetryAttempts, jsOrNat, hc, hv]
      · simp [ZetsubouClient.resolvedRetryAttempts, jsOrNat, hc, hv]
        omega
  · rcases hc : config.timeout with _ | v
    · simp [ZetsubouClient.resolvedTimeout, jsOrNat, hc]
    · by_cases hv : v = 0
      · simp [ZetsubouClient.resolvedTimeout, jsOrNat, hc, hv]
      · simp [ZetsubouClient.resolvedTimeout, jsOrNat, hc, hv]
        omega
/-- Witness for C2 (amended) at M = 2: three attempts and the delay list
2000 ms, 4000 ms. -/
theorem C2_witness :
    (axiosRequest 2 (fun _ => some ⟨none, true, "Network Error"⟩)).attempts = 2 + 1 ∧
    (axiosRequest 2 (fun _ => some ⟨none, true, "Network Error"⟩)).delays = [2000, 4000] :=
  ⟨(C2_transient_run_attempt_count_and_delays 2 "Network Error").1,
   ((C2_transient_run_attempt_count_and_delays 2 "Network Error").2.1).trans (by decide)⟩

/-- Witness for C10 at a concrete configuration: retryAttempts 0 resolves
to 3 and a zero timeout resolves positively (to 30000). -/
theorem C10_witness :
    ZetsubouClient.resolvedRetryAttempts ⟨"k", none, none, some 0, false⟩ = 3 ∧
    0 < ZetsubouClient.resolvedTimeout ⟨"k", none, some 0, none, false⟩ :=
  ⟨((C10_zero_config_falls_back_to_defaults "k" none none none false).1).trans
     ((C10_zero_config_falls_back_to_defaults "k" none none none false).2.1),
   ((C10_zero_config_falls_back_to_defaults "k" none none none false).2.2.2.2
     ⟨"k", none, some 0, none, false⟩).2⟩
